import Mathlib

/-!
Verification of the crazyflie safety-filter node
(`src/ros/src/crazyflie_refinecbf/safety_filter.py` and
`src/ros/src/crazyflie_refinecbf/config.py`) against its design document.

The per-cycle loop (`SafetyFilter.timer_callback`), the subscription
callbacks (`cbf_sub_callback`, `nom_policy_sub_callback`) and the shutdown
path (`main`) are embedded as pure functions from the node state (plus the
asynchronous inputs delivered to them) to a new node state together with a
list of externally visible events.  Numeric quantities are real numbers.

External library calls (hj_reachability grid interpolation, the circular
DiffDriveCBF from refine_cbf.utils, and the cbf_opt QP corrector) are not
part of this repository; where a claim depends on them they are modelled
from the design document, with doc comments marking each such definition.
-/

namespace CrazyflieClean

/-! ## Configuration constants (config.py) -/

/-- config.py line 80: grid density, one entry per state-space dimension. -/
def GRID_RESOLUTION : List ℕ := [61, 61, 61]

/-- Per-dimension accessor for `GRID_RESOLUTION`. -/
def gridRes (i : Fin 3) : ℕ := GRID_RESOLUTION.getD i 0

/-- config.py line 85: lower bound of the discretized state space. -/
noncomputable def GRID_LOWER : Fin 3 → ℝ := fun i => match i with
  | 0 => 0
  | 1 => 0
  | 2 => -Real.pi

/-- config.py line 86: upper bound of the discretized state space. -/
noncomputable def GRID_UPPER : Fin 3 → ℝ := fun i => match i with
  | 0 => 2
  | 1 => 2
  | 2 => Real.pi

/-- config.py line 92: the heading dimension (index 2) is periodic. -/
def PERIODIC_DIMENSIONS : ℕ := 2

/-- Whether a state dimension is periodic. -/
def isPeriodicDim (i : Fin 3) : Bool := decide ((i : ℕ) = PERIODIC_DIMENSIONS)

/-- config.py line 58: initial state / pose. -/
noncomputable def INITIAL_STATE : Fin 3 → ℝ := fun i => match i with
  | 0 => 0.5
  | 1 => 1.0
  | 2 => 0

/-- config.py line 109: lower control bounds. -/
noncomputable def U_MIN : Fin 2 → ℝ := fun i => match i with
  | 0 => 0.0
  | 1 => 0.0

/-- config.py line 110: upper control bounds. -/
noncomputable def U_MAX : Fin 2 → ℝ := fun i => match i with
  | 0 => 1.0
  | 1 => 1.0

/-- config.py line 146: gamma discount rate for the CBVF. -/
noncomputable def GAMMA : ℝ := 0.25

/-- config.py line 150: scalar multiplier for the CBF. -/
noncomputable def CBF_SCALAR : ℝ := 1.0

/-- config.py line 153: radius of the circular CBF. -/
noncomputable def RADIUS_CBF : ℝ := 0.33

/-- config.py line 154: center of the circular CBF. -/
noncomputable def CENTER_CBF : Fin 2 → ℝ := fun i => match i with
  | 0 => 0.5
  | 1 => 1.0

/-- config.py line 52: whether the CBF is refined at runtime. -/
def USE_REFINECBF : Bool := true

/-! ## Grid interpolation (hj_reachability, modelled from the spec)

The node calls `self.grid.interpolate(self.tabular_cbf.vf_table, self.state)`
where `grid` is an hj_reachability lattice built from the configuration
constants above.  hj_reachability is an external library, so multilinear
interpolation is modelled from the design document (section 4.1): state
components on periodic dimensions are wrapped modulo the domain span,
non-periodic components are clamped to the domain, then the surrounding
hyper-cube is located and the 2^3 corner values are blended with weights
linear in each axis. -/

/-- Modelled from the spec: grid spacing per dimension.  Non-periodic
dimensions place their nodes endpoint-inclusive (resolution − 1 intervals);
a periodic dimension covers the span with resolution intervals. -/
noncomputable def dx (i : Fin 3) : ℝ :=
  (GRID_UPPER i - GRID_LOWER i) /
    (if isPeriodicDim i then (gridRes i : ℝ) else (gridRes i : ℝ) - 1)

/-- Modelled from the spec: coordinate of grid node `j` along dimension `i`. -/
noncomputable def nodeCoord (i : Fin 3) (j : ℕ) : ℝ := GRID_LOWER i + j * dx i

/-- Modelled from the spec: wrap a periodic coordinate into the domain,
clamp a non-periodic coordinate to the domain. -/
noncomputable def wrapOrClamp (i : Fin 3) (x : ℝ) : ℝ :=
  if isPeriodicDim i then
    x - (GRID_UPPER i - GRID_LOWER i) *
      ⌊(x - GRID_LOWER i) / (GRID_UPPER i - GRID_LOWER i)⌋
  else max (GRID_LOWER i) (min x (GRID_UPPER i))

/-- Modelled from the spec: position of the (wrapped/clamped) coordinate in
units of grid cells from the lower bound. -/
noncomputable def gridPos (i : Fin 3) (x : ℝ) : ℝ :=
  (wrapOrClamp i x - GRID_LOWER i) / dx i

/-- Modelled from the spec: index of the lower corner of the hyper-cube
containing the state, along dimension `i`. -/
noncomputable def baseIdx (i : Fin 3) (x : ℝ) : ℕ :=
  if isPeriodicDim i then (⌊gridPos i x⌋).toNat % gridRes i
  else min (⌊gridPos i x⌋).toNat (gridRes i - 2)

/-- Modelled from the spec: interpolation weight along dimension `i`. -/
noncomputable def fracWeight (i : Fin 3) (x : ℝ) : ℝ :=
  gridPos i x - (baseIdx i x : ℝ)

/-- Modelled from the spec: index of the upper corner of the hyper-cube
along dimension `i` (wrapping around on the periodic dimension). -/
def nextIdx (i : Fin 3) (k : ℕ) : ℕ :=
  if isPeriodicDim i then (k + 1) % gridRes i else k + 1

/-- Linear interpolation between two corner values with weight `w`. -/
noncomputable def interp1 (a b w : ℝ) : ℝ := (1 - w) * a + w * b

/-- Modelled from the spec: trilinear interpolation of the tabulated value
function at a state, blending the eight corners of the containing cell. -/
noncomputable def interp3 (t : ℕ → ℕ → ℕ → ℝ) (s : Fin 3 → ℝ) : ℝ :=
  interp1
    (interp1
      (interp1 (t (baseIdx 0 (s 0)) (baseIdx 1 (s 1)) (baseIdx 2 (s 2)))
               (t (baseIdx 0 (s 0)) (baseIdx 1 (s 1)) (nextIdx 2 (baseIdx 2 (s 2))))
               (fracWeight 2 (s 2)))
      (interp1 (t (baseIdx 0 (s 0)) (nextIdx 1 (baseIdx 1 (s 1))) (baseIdx 2 (s 2)))
               (t (baseIdx 0 (s 0)) (nextIdx 1 (baseIdx 1 (s 1))) (nextIdx 2 (baseIdx 2 (s 2))))
               (fracWeight 2 (s 2)))
      (fracWeight 1 (s 1)))
    (interp1
      (interp1 (t (nextIdx 0 (baseIdx 0 (s 0))) (baseIdx 1 (s 1)) (baseIdx 2 (s 2)))
               (t (nextIdx 0 (baseIdx 0 (s 0))) (baseIdx 1 (s 1)) (nextIdx 2 (baseIdx 2 (s 2))))
               (fracWeight 2 (s 2)))
      (interp1 (t (nextIdx 0 (baseIdx 0 (s 0))) (nextIdx 1 (baseIdx 1 (s 1))) (baseIdx 2 (s 2)))
               (t (nextIdx 0 (baseIdx 0 (s 0))) (nextIdx 1 (baseIdx 1 (s 1))) (nextIdx 2 (baseIdx 2 (s 2))))
               (fracWeight 2 (s 2)))
      (fracWeight 1 (s 1)))
    (fracWeight 0 (s 0))

/-! ## The tabulated initial CBF (config.py lines 152-163) -/

/-- Modelled from the spec: `DiffDriveCBF` (refine_cbf.utils, not under
src/) — the circular CBF with the configured center, radius and scalar
multiplier, whose value at the circle's center is radius times scalar
(spec section 8, end-to-end scenario): h(x, y) = scalar * (r - dist). -/
noncomputable def circularCBF (x y : ℝ) : ℝ :=
  CBF_SCALAR *
    (RADIUS_CBF - Real.sqrt ((x - CENTER_CBF 0) ^ 2 + (y - CENTER_CBF 1) ^ 2))

/-- A value-function table as held by `TabularControlAffineCBF.vf_table`:
a dense array with a shape attribute; entries are addressed by grid index.
Only the shape participates in the (missing) validation discussed by the
claims, so shape and contents are carried separately. -/
structure VfTable where
  shape : List ℕ
  data : ℕ → ℕ → ℕ → ℝ

/-- config.py lines 159-163: the tabulation of the circular CBF over the
grid (`tabularize_cbf` evaluates the CBF at every grid node; the heading
dimension does not enter the circular CBF, so entries are independent of
the third index). -/
noncomputable def INITIAL_CBF : VfTable :=
  ⟨GRID_RESOLUTION, fun i j _ => circularCBF (nodeCoord 0 i) (nodeCoord 1 j)⟩

/-! ## The SafetyFilter node (safety_filter.py)

ROS plumbing (publisher/subscriber registration, QoS, the timer) is
abstracted away; what each publisher emits is recorded as an event.  The
cbf_opt corrector `self.diffdrive_asif(...)` returns `np.atleast_2d` of the
cvxpy variable value — a 2-D float array `[[v, w]]` on success (hence the
`control_input[0, 0]` / `control_input[0, 1]` indexing at lines 130/135),
and `array([[None]], dtype=object)` when the QP is infeasible and the
variable value is None.  For that object array, `control_input[0].any()`
is a single-element object reduce and returns the element `None` itself,
so the guard `control_input[0].any() is None` at line 118 fires exactly on
the infeasible return.  The one Python runtime error a claim hinges on is
modelled explicitly: referencing the undefined module name `DATA_FILENAME`
raises NameError. -/

/-- A geometry_msgs Twist message. -/
structure Twist where
  linear_x : ℝ
  linear_y : ℝ
  linear_z : ℝ
  angular_x : ℝ
  angular_y : ℝ
  angular_z : ℝ

/-- One row appended by `self.data_logger.append(...)` (safety_filter.py
lines 143-152): state components, safety value, filtered and nominal
controls. -/
structure TelemetryRecord where
  x : ℝ
  y : ℝ
  theta : ℝ
  safety_value : ℝ
  v : ℝ
  omega : ℝ
  v_nom : ℝ
  omega_nom : ℝ

/-- Python runtime errors raised on the paths the claims examine. -/
inductive PyError where
  /-- NameError: name DATA_FILENAME is not defined
  (config.py line 30 is commented out). -/
  | nameErrorDataFilename

/-- Externally visible actions of the node, in program order. -/
inductive Event where
  /-- A Float32 published on the safety_value topic. -/
  | pubSafetyValue (v : ℝ)
  /-- The call `self.diffdrive_asif(self.state, 0.0, nominal_policy)`
  with the state and nominal policy it was handed. -/
  | asifInvoke (st : Fin 3 → ℝ) (nominal : ℝ × ℝ)
  /-- A record written to qp_failure.log (safety_filter.py lines 120-125):
  time of occurrence, state, safety value, nominal policy. -/
  | qpFailureLog (time : ℝ) (st : Fin 3 → ℝ) (safetyValue : ℝ) (nominal : ℝ × ℝ)
  /-- A Twist published on the control topic. -/
  | pubControl (msg : Twist)
  /-- One telemetry record appended to the in-memory data logger. -/
  | telemetryAppend (r : TelemetryRecord)
  /-- `data_logger.save_data(...)`: the accumulated records flushed to disk. -/
  | saveDataToFile (records : List TelemetryRecord)
  /-- `safety_filter.destroy_node()`: resource release. -/
  | destroyNode

/-- Boolean classifier: is the event a control publish? -/
def isPubControlEvent : Event → Bool
  | Event.pubControl _ => true
  | _ => false

/-- Boolean classifier: is the event a QP-failure log record? -/
def isQpFailureLogEvent : Event → Bool
  | Event.qpFailureLog _ _ _ _ => true
  | _ => false

/-- Boolean classifier: is the event a telemetry append? -/
def isTelemetryAppendEvent : Event → Bool
  | Event.telemetryAppend _ => true
  | _ => false

/-- Boolean classifier: is the event a flush of telemetry to disk? -/
def isSaveDataEvent : Event → Bool
  | Event.saveDataToFile _ => true
  | _ => false

/-- The mutable attributes of the `SafetyFilter` object that the embedded
code reads and writes. -/
structure NodeState where
  state : Fin 3 → ℝ
  nominal_policy : ℝ × ℝ
  /-- `self.safety_value` is first assigned inside `publish_safety_value`,
  so it is absent until the first cycle runs. -/
  safety_value : Option ℝ
  vf_table : VfTable
  dataLog : List TelemetryRecord

/-- `SafetyFilter.__init__` (lines 40-54, 91): selects the initial value
table — the tabularized circular CBF when `USE_REFINECBF`, otherwise the
array loaded from `PRECOMPUTED_CBF_FILENAME` (passed in as `precomputed`,
since file contents are external input) — and sets the initial state,
initial nominal policy `[U_MIN[0], 0]` and an empty data logger. -/
noncomputable def safetyFilterInit (useRefine : Bool) (precomputed : VfTable) :
    NodeState where
  state := INITIAL_STATE
  nominal_policy := (U_MIN 0, 0)
  safety_value := none
  vf_table := if useRefine then INITIAL_CBF else precomputed
  dataLog := []

/-- The node state right after construction under the shipped configuration
(`USE_REFINECBF = true`; the precomputed-file argument is then unused and
an arbitrary table is supplied). -/
noncomputable def initState : NodeState :=
  safetyFilterInit USE_REFINECBF ⟨GRID_RESOLUTION, fun _ _ _ => 0⟩

/-- Result of one run of the timer callback: the events it emitted in
order, and the updated node state.  The callback itself raises no
exception on either branch. -/
structure CycleResult where
  events : List Event
  next : NodeState

/-- `SafetyFilter.timer_callback` (lines 101-152).  `qpResult` is the value
returned by the external cbf_opt QP corrector `self.diffdrive_asif(...)`:
`some u` for a solved 2-D array `[[v, w]]`, `none` for the infeasible
return `array([[None]], dtype=object)` (the Infeasible case named by the
claims).  `now` stands for `time.time()`.

Order of operations, as in the source: `publish_safety_value` interpolates
the current table at the current state, stores and publishes it; the ASIF
is invoked with the current state and nominal policy; line 118 then tests
`control_input[0].any() is None`, which is True exactly on the infeasible
object-array return — in that case lines 119-125 append one record
(time of occurrence, state, safety value, nominal policy) to
qp_failure.log and line 126 overwrites the control with the safe-stop
`np.array([[U_MIN[0], 0.0]])`; the control (corrector output or fallback)
is published with only `linear.x`/`angular.z` populated, and one telemetry
record is appended with the published components. -/
noncomputable def timer_callback (now : ℝ) (qpResult : Option (ℝ × ℝ))
    (s : NodeState) : CycleResult :=
  let sv := interp3 s.vf_table.data s.state
  let s1 : NodeState := { s with safety_value := some sv }
  let evs := [Event.pubSafetyValue sv, Event.asifInvoke s.state s.nominal_policy]
  let failEvs :=
    match qpResult with
    | none => [Event.qpFailureLog now s.state sv s.nominal_policy]
    | some _ => []
  let control :=
    match qpResult with
    | none => (U_MIN 0, (0 : ℝ))
    | some u => u
  let msg : Twist := ⟨control.1, 0, 0, 0, 0, control.2⟩
  let r : TelemetryRecord :=
    ⟨s.state 0, s.state 1, s.state 2, sv, control.1, control.2,
     s.nominal_policy.1, s.nominal_policy.2⟩
  ⟨evs ++ failEvs ++ [Event.pubControl msg, Event.telemetryAppend r],
   { s1 with dataLog := s1.dataLog ++ [r] }⟩

/-- `SafetyFilter.cbf_sub_callback` (lines 154-164).  `loaded` is the array
read from the well-known location ./log/cbf.npy.  When `USE_REFINECBF` and
the message is True, the loaded table is assigned to
`self.tabular_cbf.vf_table` (and the ASIF repointed at it) with no check of
any kind; otherwise nothing happens. -/
noncomputable def cbf_sub_callback (useRefine : Bool) (loaded : VfTable)
    (msgData : Bool) (s : NodeState) : NodeState :=
  if useRefine then
    (if msgData then { s with vf_table := loaded } else s)
  else s

/-- `SafetyFilter.nom_policy_sub_callback` (lines 167-173): stores
`[msg.linear.x, msg.angular.z]` as the new nominal policy. -/
noncomputable def nom_policy_sub_callback (msg : Twist) (s : NodeState) :
    NodeState :=
  { s with nominal_policy := (msg.linear_x, msg.angular_z) }

/-! ## Shutdown (`main`, safety_filter.py lines 175-201) -/

/-- Modelled from the spec: `create_shutdown_message` (refine_cbf.utils,
not under src/) builds the safe-stop, zero-motion command. -/
noncomputable def create_shutdown_message : Twist := ⟨0, 0, 0, 0, 0, 0⟩

/-- config.py lines 29-30: the definition of `DATA_FILENAME` is commented
out, so the name is undefined at module scope and evaluating it raises
NameError. -/
def DATA_FILENAME : Except PyError String :=
  Except.error PyError.nameErrorDataFilename

/-- How `rospy.spin()` returns control to `main`. -/
inductive SpinExit where
  /-- A KeyboardInterrupt was raised (Ctrl-C). -/
  | interrupted
  /-- `spin` returned normally (node shut down externally). -/
  | returned

/-- The `except KeyboardInterrupt` handler (lines 183-191): publish the
shutdown message, then call `save_data(DATA_FILENAME)` — whose argument
raises NameError, so no save happens and the handler aborts. -/
noncomputable def exceptHandler (s : NodeState) : List Event × Option PyError :=
  match DATA_FILENAME with
  | Except.error e => ([Event.pubControl create_shutdown_message], some e)
  | Except.ok _ =>
      ([Event.pubControl create_shutdown_message, Event.saveDataToFile s.dataLog],
       none)

/-- The `finally` block (lines 193-201): publish the shutdown message and
destroy the node.  It runs on every exit path, even while an exception from
the handler is propagating. -/
noncomputable def finallyEvents : List Event :=
  [Event.pubControl create_shutdown_message, Event.destroyNode]

/-- The shutdown portion of `main` (lines 179-201): events in order, and
the Python error still propagating afterwards, if any. -/
noncomputable def main_shutdown (e : SpinExit) (s : NodeState) :
    List Event × Option PyError :=
  match e with
  | SpinExit.interrupted =>
      let handled := exceptHandler s
      (handled.1 ++ finallyEvents, handled.2)
  | SpinExit.returned => (finallyEvents, none)

/-! ## The ASIF control corrector (cbf_opt, modelled from the spec)

The QP solved each cycle (spec section 4.3): minimize the squared distance
to the nominal control subject to the affine safety constraint — the time
derivative of the safety value along the control-affine dynamics plus
gamma times the value must be non-negative — and the box control bounds. -/

/-- Modelled from the spec: drift term of the differential-drive
control-affine dynamics (`DiffDriveDynamics`, refine_cbf.utils, not under
src/): xdot = v cos(theta), ydot = v sin(theta), thetadot = omega has no
drift, so f(s) = 0. -/
noncomputable def dynDrift (_ : Fin 3 → ℝ) : Fin 3 → ℝ := fun _ => 0

/-- Modelled from the spec: actuation term of the differential-drive
dynamics applied to a control u = (v, omega). -/
noncomputable def dynActuation (s : Fin 3 → ℝ) (u : ℝ × ℝ) : Fin 3 → ℝ :=
  fun i => match i with
  | 0 => u.1 * Real.cos (s 2)
  | 1 => u.1 * Real.sin (s 2)
  | 2 => u.2

/-- Modelled from the spec: the single affine safety constraint, formed
from the interpolated gradient `gradh`, the safety value `h` at the state,
the dynamics evaluated at the state, and the safety parameter gamma. -/
noncomputable def asifConstraint (gradh : Fin 3 → ℝ) (h : ℝ) (s : Fin 3 → ℝ)
    (u : ℝ × ℝ) : Prop :=
  0 ≤ gradh 0 * (dynDrift s 0 + dynActuation s u 0) +
      gradh 1 * (dynDrift s 1 + dynActuation s u 1) +
      gradh 2 * (dynDrift s 2 + dynActuation s u 2) + GAMMA * h

/-- The box bounds on the control (config.py U_MIN/U_MAX). -/
noncomputable def inControlBounds (u : ℝ × ℝ) : Prop :=
  U_MIN 0 ≤ u.1 ∧ u.1 ≤ U_MAX 0 ∧ U_MIN 1 ≤ u.2 ∧ u.2 ≤ U_MAX 1

/-- Modelled from the spec: `u` is the output of the corrector for nominal
control `unom` — it is feasible and no feasible control is closer to the
nominal in squared Euclidean distance. -/
noncomputable def isFilteredControl (gradh : Fin 3 → ℝ) (h : ℝ)
    (s : Fin 3 → ℝ) (unom u : ℝ × ℝ) : Prop :=
  (asifConstraint gradh h s u ∧ inControlBounds u) ∧
  ∀ v : ℝ × ℝ, asifConstraint gradh h s v → inControlBounds v →
    (u.1 - unom.1) ^ 2 + (u.2 - unom.2) ^ 2 ≤
      (v.1 - unom.1) ^ 2 + (v.2 - unom.2) ^ 2

/-! ## Evaluating the grid at the initial state

The shipped scenario (claim sources: config.py): state (0.5, 1.0, 0).  The
first two coordinates are exact grid nodes (cell 15 and cell 30 of a
1/30-spaced axis); the heading coordinate falls midway between periodic
nodes 30 and 31, with weight 1/2. -/

theorem gridRes_0 : gridRes 0 = 61 := rfl

theorem gridRes_1 : gridRes 1 = 61 := rfl

theorem gridRes_2 : gridRes 2 = 61 := rfl

theorem dx_0 : dx 0 = 1 / 30 := by
  show (GRID_UPPER 0 - GRID_LOWER 0) / ((gridRes 0 : ℝ) - 1) = 1 / 30
  show ((2 : ℝ) - 0) / (((61 : ℕ) : ℝ) - 1) = 1 / 30
  norm_num

theorem dx_1 : dx 1 = 1 / 30 := by
  show ((2 : ℝ) - 0) / (((61 : ℕ) : ℝ) - 1) = 1 / 30
  norm_num

theorem dx_2 : dx 2 = 2 * Real.pi / 61 := by
  show (Real.pi - -Real.pi) / ((61 : ℕ) : ℝ) = 2 * Real.pi / 61
  push_cast
  ring

theorem wrapOrClamp_s0 : wrapOrClamp 0 (INITIAL_STATE 0) = 1 / 2 := by
  show max (0 : ℝ) (min 0.5 2) = 1 / 2
  rw [min_eq_left (by norm_num : (0.5 : ℝ) ≤ 2),
      max_eq_right (by norm_num : (0 : ℝ) ≤ 0.5)]
  norm_num

theorem wrapOrClamp_s1 : wrapOrClamp 1 (INITIAL_STATE 1) = 1 := by
  show max (0 : ℝ) (min 1.0 2) = 1
  rw [min_eq_left (by norm_num : (1.0 : ℝ) ≤ 2),
      max_eq_right (by norm_num : (0 : ℝ) ≤ 1.0)]
  norm_num

theorem wrapOrClamp_s2 : wrapOrClamp 2 (INITIAL_STATE 2) = 0 := by
  show (0 : ℝ) - (Real.pi - -Real.pi) * ⌊((0 : ℝ) - -Real.pi) / (Real.pi - -Real.pi)⌋ = 0
  have h1 : ((0 : ℝ) - -Real.pi) / (Real.pi - -Real.pi) = 1 / 2 := by
    rw [show ((0 : ℝ) - -Real.pi) = Real.pi by ring,
        show (Real.pi - -Real.pi) = 2 * Real.pi by ring,
        div_eq_div_iff (by positivity) (by norm_num)]
    ring
  rw [h1]
  norm_num

theorem gridPos_s0 : gridPos 0 (INITIAL_STATE 0) = 15 := by
  show (wrapOrClamp 0 (INITIAL_STATE 0) - GRID_LOWER 0) / dx 0 = 15
  rw [wrapOrClamp_s0, dx_0, show GRID_LOWER 0 = 0 from rfl]
  norm_num

theorem gridPos_s1 : gridPos 1 (INITIAL_STATE 1) = 30 := by
  show (wrapOrClamp 1 (INITIAL_STATE 1) - GRID_LOWER 1) / dx 1 = 30
  rw [wrapOrClamp_s1, dx_1, show GRID_LOWER 1 = 0 from rfl]
  norm_num

theorem gridPos_s2 : gridPos 2 (INITIAL_STATE 2) = 61 / 2 := by
  show (wrapOrClamp 2 (INITIAL_STATE 2) - GRID_LOWER 2) / dx 2 = 61 / 2
  rw [wrapOrClamp_s2, dx_2, show GRID_LOWER 2 = -Real.pi from rfl]
  rw [show (0 : ℝ) - -Real.pi = Real.pi by ring, div_div_eq_mul_div,
      div_eq_div_iff (by positivity) (by norm_num)]
  ring

theorem baseIdx_s0 : baseIdx 0 (INITIAL_STATE 0) = 15 := by
  show min (⌊gridPos 0 (INITIAL_STATE 0)⌋).toNat (gridRes 0 - 2) = 15
  rw [gridPos_s0, show ⌊(15 : ℝ)⌋ = 15 by norm_num]
  rfl

theorem baseIdx_s1 : baseIdx 1 (INITIAL_STATE 1) = 30 := by
  show min (⌊gridPos 1 (INITIAL_STATE 1)⌋).toNat (gridRes 1 - 2) = 30
  rw [gridPos_s1, show ⌊(30 : ℝ)⌋ = 30 by norm_num]
  rfl

theorem baseIdx_s2 : baseIdx 2 (INITIAL_STATE 2) = 30 := by
  show (⌊gridPos 2 (INITIAL_STATE 2)⌋).toNat % gridRes 2 = 30
  rw [gridPos_s2, show ⌊(61 : ℝ) / 2⌋ = 30 by norm_num]
  rfl

theorem fracWeight_s0 : fracWeight 0 (INITIAL_STATE 0) = 0 := by
  show gridPos 0 (INITIAL_STATE 0) - (baseIdx 0 (INITIAL_STATE 0) : ℝ) = 0
  rw [gridPos_s0, baseIdx_s0]
  norm_num

theorem fracWeight_s1 : fracWeight 1 (INITIAL_STATE 1) = 0 := by
  show gridPos 1 (INITIAL_STATE 1) - (baseIdx 1 (INITIAL_STATE 1) : ℝ) = 0
  rw [gridPos_s1, baseIdx_s1]
  norm_num

theorem fracWeight_s2 : fracWeight 2 (INITIAL_STATE 2) = 1 / 2 := by
  show gridPos 2 (INITIAL_STATE 2) - (baseIdx 2 (INITIAL_STATE 2) : ℝ) = 1 / 2
  rw [gridPos_s2, baseIdx_s2]
  norm_num

theorem nodeCoord_0_15 : nodeCoord 0 15 = 1 / 2 := by
  show GRID_LOWER 0 + (15 : ℕ) * dx 0 = 1 / 2
  rw [show GRID_LOWER 0 = 0 from rfl, dx_0]
  norm_num

theorem nodeCoord_1_30 : nodeCoord 1 30 = 1 := by
  show GRID_LOWER 1 + (30 : ℕ) * dx 1 = 1
  rw [show GRID_LOWER 1 = 0 from rfl, dx_1]
  norm_num

theorem circularCBF_center : circularCBF (1 / 2) 1 = CBF_SCALAR * RADIUS_CBF := by
  show CBF_SCALAR *
      (RADIUS_CBF - Real.sqrt (((1 : ℝ) / 2 - 0.5) ^ 2 + ((1 : ℝ) - 1.0) ^ 2)) =
    CBF_SCALAR * RADIUS_CBF
  rw [show ((1 : ℝ) / 2 - 0.5) ^ 2 + ((1 : ℝ) - 1.0) ^ 2 = 0 by norm_num,
      Real.sqrt_zero, sub_zero]

/-- The trilinear interpolation of the shipped initial table at the shipped
initial state: weights 0 along the two exact-node axes leave a single
lerp along the heading axis between two equal corner values. -/
theorem interp3_initial :
    interp3 INITIAL_CBF.data INITIAL_STATE = CBF_SCALAR * RADIUS_CBF := by
  unfold interp3
  rw [fracWeight_s0, fracWeight_s1, fracWeight_s2, baseIdx_s0, baseIdx_s1,
      baseIdx_s2]
  show interp1
      (interp1
        (interp1 (circularCBF (nodeCoord 0 15) (nodeCoord 1 30))
                 (circularCBF (nodeCoord 0 15) (nodeCoord 1 30)) (1 / 2))
        (interp1 (circularCBF (nodeCoord 0 15) (nodeCoord 1 (nextIdx 1 30)))
                 (circularCBF (nodeCoord 0 15) (nodeCoord 1 (nextIdx 1 30))) (1 / 2))
        0)
      (interp1
        (interp1 (circularCBF (nodeCoord 0 (nextIdx 0 15)) (nodeCoord 1 30))
                 (circularCBF (nodeCoord 0 (nextIdx 0 15)) (nodeCoord 1 30)) (1 / 2))
        (interp1 (circularCBF (nodeCoord 0 (nextIdx 0 15)) (nodeCoord 1 (nextIdx 1 30)))
                 (circularCBF (nodeCoord 0 (nextIdx 0 15)) (nodeCoord 1 (nextIdx 1 30))) (1 / 2))
        0)
      0 = CBF_SCALAR * RADIUS_CBF
  rw [nodeCoord_0_15, nodeCoord_1_30, circularCBF_center]
  unfold interp1
  ring

theorem dynActuation_zero (s : Fin 3 → ℝ) (u : ℝ × ℝ) :
    dynActuation s u 0 = u.1 * Real.cos (s 2) := rfl

theorem dynActuation_one (s : Fin 3 → ℝ) (u : ℝ × ℝ) :
    dynActuation s u 1 = u.1 * Real.sin (s 2) := rfl

theorem dynActuation_two (s : Fin 3 → ℝ) (u : ℝ × ℝ) :
    dynActuation s u 2 = u.2 := rfl

/-- The zero control satisfies the safety constraint at the initial state
for any interpolated gradient, because the dynamics are driftless and the
safety value there is positive. -/
theorem asifConstraint_zero_ctrl (gradh : Fin 3 → ℝ) :
    asifConstraint gradh (CBF_SCALAR * RADIUS_CBF) INITIAL_STATE (0, 0) := by
  show (0 : ℝ) ≤ gradh 0 * (0 + 0 * Real.cos (INITIAL_STATE 2)) +
      gradh 1 * (0 + 0 * Real.sin (INITIAL_STATE 2)) +
      gradh 2 * (0 + 0) + GAMMA * (CBF_SCALAR * RADIUS_CBF)
  have hz : gradh 0 * (0 + 0 * Real.cos (INITIAL_STATE 2)) +
      gradh 1 * (0 + 0 * Real.sin (INITIAL_STATE 2)) +
      gradh 2 * (0 + 0) + GAMMA * (CBF_SCALAR * RADIUS_CBF) =
      GAMMA * (CBF_SCALAR * RADIUS_CBF) := by ring
  rw [hz, show GAMMA * (CBF_SCALAR * RADIUS_CBF) = 0.25 * (1.0 * 0.33) from rfl]
  norm_num

/-- The zero control is inside the configured control box. -/
theorem inControlBounds_zero : inControlBounds (0, 0) := by
  show (0.0 : ℝ) ≤ 0 ∧ (0 : ℝ) ≤ 1.0 ∧ (0.0 : ℝ) ≤ 0 ∧ (0 : ℝ) ≤ 1.0
  norm_num

/-! ## Claims -/

/-- Claim C1 (amended): the certificate-availability install step performs
no shape validation at all — with refinement enabled and a true
availability message, the loaded candidate table is installed
unconditionally, even when its shape differs from the grid resolution;
there is no ShapeMismatch rejection and the prior table is not retained. -/
theorem C1_install_skips_shape_validation (loaded : VfTable) (s : NodeState)
    (_hshape : loaded.shape ≠ GRID_RESOLUTION) :
    (cbf_sub_callback true loaded true s).vf_table = loaded := rfl

/-- Witness for C1: a table of shape [2] really is mismatched, and the
install theorem applies to it. -/
theorem C1_install_skips_shape_validation_witness :
    (⟨[2], fun _ _ _ => 0⟩ : VfTable).shape ≠ GRID_RESOLUTION ∧
    (cbf_sub_callback true ⟨[2], fun _ _ _ => 0⟩ true initState).vf_table =
      ⟨[2], fun _ _ _ => 0⟩ :=
  ⟨by decide,
   C1_install_skips_shape_validation ⟨[2], fun _ _ _ => 0⟩ initState (by decide)⟩

/-- Counterexample to C1 as stated: delivering a table of shape [2] while
the installed table has the grid shape [61, 61, 61] replaces the installed
table with the mismatched one — the update is not rejected and the prior
table is not retained. -/
theorem C1_counterexample :
    (cbf_sub_callback true ⟨[2], fun _ _ _ => 0⟩ true initState).vf_table.shape
      = [2] ∧
    GRID_RESOLUTION = [61, 61, 61] ∧
    initState.vf_table.shape = [61, 61, 61] :=
  ⟨rfl, rfl, rfl⟩

/-- Claim C2: in every cycle whose corrector returns the infeasible
`array([[None]])`, the line-118 guard fires and the one control message
the cycle publishes is the safe-stop overwrite `[[U_MIN[0], 0.0]]`, which
under the configured bounds is the zero-motion command — never the
corrector's output — and the callback completes normally. -/
theorem C2_infeasible_safe_stop (now : ℝ) (s : NodeState) :
    ((timer_callback now none s).events.filter isPubControlEvent) =
      [Event.pubControl ⟨U_MIN 0, 0, 0, 0, 0, 0⟩] ∧
    U_MIN 0 = 0 :=
  ⟨rfl, by show (0.0 : ℝ) = 0; norm_num⟩

/-- Claim C3 counterexample: on the KeyboardInterrupt exit path the
safe-stop control is published twice (except-handler at line 188 and
finally-block at line 196), not exactly once. -/
theorem C3_counterexample :
    ((main_shutdown SpinExit.interrupted initState).1.filter
      isPubControlEvent).length = 2 := rfl

/-- Claim C3 (amended): on the KeyboardInterrupt exit path the safe-stop
control is published twice — once by the interrupt handler and once by the
finally block — before the node is destroyed; on a normal return of spin it
is published exactly once, followed only by the resource release. -/
theorem C3_shutdown_publish_counts (s : NodeState) :
    (main_shutdown SpinExit.interrupted s).1 =
      [Event.pubControl create_shutdown_message,
       Event.pubControl create_shutdown_message, Event.destroyNode] ∧
    (main_shutdown SpinExit.returned s).1 =
      [Event.pubControl create_shutdown_message, Event.destroyNode] ∧
    (main_shutdown SpinExit.returned s).2 = none :=
  ⟨rfl, rfl, rfl⟩

/-- Claim C4 (code evaluated at the failing input): on the interrupt path
the call `save_data(DATA_FILENAME)` raises NameError because config.py
line 30 commented the definition out, so no telemetry is flushed; on the
non-interrupt path `save_data` is never even called.  No shutdown path
flushes the telemetry. -/
theorem C4_no_telemetry_flush (s : NodeState) :
    (main_shutdown SpinExit.interrupted s).2 =
      some PyError.nameErrorDataFilename ∧
    ((main_shutdown SpinExit.interrupted s).1.filter isSaveDataEvent) = [] ∧
    ((main_shutdown SpinExit.returned s).1.filter isSaveDataEvent) = [] :=
  ⟨rfl, rfl, rfl⟩

/-- Claim C5: every cycle whose corrector fails writes exactly one failure
record, carrying the timestamp of the occurrence, the state, the safety
value and the nominal policy of that cycle (safety_filter.py lines
119-125); cycles whose corrector succeeds write none. -/
theorem C5_failure_record (now : ℝ) (s : NodeState) :
    ((timer_callback now none s).events.filter isQpFailureLogEvent) =
      [Event.qpFailureLog now s.state (interp3 s.vf_table.data s.state)
        s.nominal_policy] ∧
    ∀ u : ℝ × ℝ,
      ((timer_callback now (some u) s).events.filter isQpFailureLogEvent) = [] :=
  ⟨rfl, fun _ => rfl⟩

/-- Claim C6: every cycle performs its steps strictly in order — the
safety value is interpolated and published first, then the corrector is
invoked with the current state and nominal policy, then the (filtered or
fallback) control is published, then exactly one telemetry record is
appended; on a failure cycle the failure-log record is written between the
corrector invocation and the fallback publish, as in lines 119-126. -/
theorem C6_cycle_event_order (now : ℝ) (u : ℝ × ℝ) (s : NodeState) :
    (timer_callback now (some u) s).events =
      [Event.pubSafetyValue (interp3 s.vf_table.data s.state),
       Event.asifInvoke s.state s.nominal_policy,
       Event.pubControl ⟨u.1, 0, 0, 0, 0, u.2⟩,
       Event.telemetryAppend
         ⟨s.state 0, s.state 1, s.state 2, interp3 s.vf_table.data s.state,
          u.1, u.2, s.nominal_policy.1, s.nominal_policy.2⟩] ∧
    (timer_callback now none s).events =
      [Event.pubSafetyValue (interp3 s.vf_table.data s.state),
       Event.asifInvoke s.state s.nominal_policy,
       Event.qpFailureLog now s.state (interp3 s.vf_table.data s.state)
         s.nominal_policy,
       Event.pubControl ⟨U_MIN 0, 0, 0, 0, 0, 0⟩,
       Event.telemetryAppend
         ⟨s.state 0, s.state 1, s.state 2, interp3 s.vf_table.data s.state,
          U_MIN 0, 0, s.nominal_policy.1, s.nominal_policy.2⟩] :=
  ⟨rfl, rfl⟩

/-- Claim C7: with runtime refinement disabled, no sequence of
certificate-availability notifications ever changes the installed table,
and the table installed at startup is the precomputed one; with refinement
enabled, a true notification installs the freshly loaded table and a false
notification leaves the table unchanged. -/
theorem C7_refinement_gating :
    (∀ (updates : List (VfTable × Bool)) (s : NodeState),
      (updates.foldl (fun st p => cbf_sub_callback false p.1 p.2 st) s).vf_table
        = s.vf_table) ∧
    (∀ precomputed : VfTable,
      (safetyFilterInit false precomputed).vf_table = precomputed) ∧
    (∀ (loaded : VfTable) (s : NodeState),
      (cbf_sub_callback true loaded true s).vf_table = loaded) ∧
    (∀ (loaded : VfTable) (s : NodeState),
      (cbf_sub_callback true loaded false s).vf_table = s.vf_table) := by
  refine ⟨?_, fun _ => rfl, fun _ _ => rfl, fun _ _ => rfl⟩
  intro updates
  induction updates with
  | nil => intro _; rfl
  | cons p rest ih => intro s; exact ih (cbf_sub_callback false p.1 p.2 s)

/-- Claim C8: under the shipped configuration, the interpolated safety
value at the initial state (0.5, 1.0, 0) is exactly the scalar times the
radius 0.33 (the circular CBF value at its center), and for nominal
control (0, 0) the corrector's output equals the nominal control —
(0, 0) is feasible and optimal, and it is the only optimum — for every
interpolated gradient. -/
theorem C8_end_to_end_scenario :
    interp3 INITIAL_CBF.data INITIAL_STATE = CBF_SCALAR * RADIUS_CBF ∧
    (∀ gradh : Fin 3 → ℝ,
      isFilteredControl gradh (interp3 INITIAL_CBF.data INITIAL_STATE)
        INITIAL_STATE (0, 0) (0, 0)) ∧
    ∀ (gradh : Fin 3 → ℝ) (u : ℝ × ℝ),
      isFilteredControl gradh (interp3 INITIAL_CBF.data INITIAL_STATE)
        INITIAL_STATE (0, 0) u → u = (0, 0) := by
  rw [interp3_initial]
  refine ⟨rfl, ?_, ?_⟩
  · intro gradh
    refine ⟨⟨asifConstraint_zero_ctrl gradh, inControlBounds_zero⟩, ?_⟩
    intro v _ _
    have h0 : ((0 : ℝ) - 0) ^ 2 + ((0 : ℝ) - 0) ^ 2 = 0 := by norm_num
    show ((0 : ℝ) - 0) ^ 2 + ((0 : ℝ) - 0) ^ 2 ≤ (v.1 - 0) ^ 2 + (v.2 - 0) ^ 2
    rw [h0]
    positivity
  · intro gradh u hu
    obtain ⟨u1, u2⟩ := u
    have hle : (u1 - 0) ^ 2 + (u2 - 0) ^ 2 ≤ ((0 : ℝ) - 0) ^ 2 + ((0 : ℝ) - 0) ^ 2 :=
      hu.2 (0, 0) (asifConstraint_zero_ctrl gradh) inControlBounds_zero
    have hsum : (u1 - 0) ^ 2 + (u2 - 0) ^ 2 ≤ 0 := by
      calc (u1 - 0) ^ 2 + (u2 - 0) ^ 2
          ≤ ((0 : ℝ) - 0) ^ 2 + ((0 : ℝ) - 0) ^ 2 := hle
        _ = 0 := by norm_num
    have h1sq : (u1 - 0) ^ 2 = 0 :=
      le_antisymm (by nlinarith [sq_nonneg (u2 - 0)]) (by positivity)
    have h2sq : (u2 - 0) ^ 2 = 0 :=
      le_antisymm (by nlinarith [sq_nonneg (u1 - 0)]) (by positivity)
    have h1 : u1 = 0 := by
      have := (pow_eq_zero_iff (by norm_num : (2 : ℕ) ≠ 0)).mp h1sq
      linarith
    have h2 : u2 = 0 := by
      have := (pow_eq_zero_iff (by norm_num : (2 : ℕ) ≠ 0)).mp h2sq
      linarith
    rw [h1, h2]

/-- Witness for C8: at the zero gradient the corrector hypothesis is
satisfied by the zero control, and the uniqueness clause instantiates. -/
theorem C8_end_to_end_scenario_witness :
    isFilteredControl (fun _ => 0) (interp3 INITIAL_CBF.data INITIAL_STATE)
      INITIAL_STATE (0, 0) (0, 0) ∧
    ((0 : ℝ), (0 : ℝ)) = (0, 0) :=
  ⟨C8_end_to_end_scenario.2.1 (fun _ => 0),
   C8_end_to_end_scenario.2.2 (fun _ => 0) (0, 0)
     (C8_end_to_end_scenario.2.1 (fun _ => 0))⟩

/-- Claim C9: every control message the per-cycle loop publishes has its
linear.y, linear.z, angular.x and angular.y components equal to zero; its
linear.x / angular.z components carry exactly the two components of the
corrector result for that cycle, or of the safe-stop fallback
(U_MIN[0], 0) when the corrector was infeasible. -/
theorem C9_control_message_zeros (now : ℝ) (q : Option (ℝ × ℝ))
    (s : NodeState) (msg : Twist)
    (hmem : Event.pubControl msg ∈ (timer_callback now q s).events) :
    msg.linear_y = 0 ∧ msg.linear_z = 0 ∧ msg.angular_x = 0 ∧
    msg.angular_y = 0 ∧
    ((∃ u : ℝ × ℝ, q = some u ∧ msg.linear_x = u.1 ∧ msg.angular_z = u.2) ∨
      (q = none ∧ msg.linear_x = U_MIN 0 ∧ msg.angular_z = 0)) := by
  cases q with
  | none =>
      simp [timer_callback] at hmem
      subst hmem
      exact ⟨rfl, rfl, rfl, rfl, Or.inr ⟨rfl, rfl, rfl⟩⟩
  | some u =>
      simp [timer_callback] at hmem
      subst hmem
      exact ⟨rfl, rfl, rfl, rfl, Or.inl ⟨u, rfl, rfl, rfl⟩⟩

/-- Witness for C9: a concrete published message in a concrete cycle. -/
theorem C9_control_message_zeros_witness :
    (⟨1 / 2, 0, 0, 0, 0, 1 / 4⟩ : Twist).linear_y = 0 ∧
    (⟨1 / 2, 0, 0, 0, 0, 1 / 4⟩ : Twist).linear_z = 0 ∧
    (⟨1 / 2, 0, 0, 0, 0, 1 / 4⟩ : Twist).angular_x = 0 ∧
    (⟨1 / 2, 0, 0, 0, 0, 1 / 4⟩ : Twist).angular_y = 0 ∧
    ((∃ u : ℝ × ℝ, some ((1 : ℝ) / 2, (1 : ℝ) / 4) = some u ∧
        (⟨1 / 2, 0, 0, 0, 0, 1 / 4⟩ : Twist).linear_x = u.1 ∧
        (⟨1 / 2, 0, 0, 0, 0, 1 / 4⟩ : Twist).angular_z = u.2) ∨
      (some ((1 : ℝ) / 2, (1 : ℝ) / 4) = none ∧
        (⟨1 / 2, 0, 0, 0, 0, 1 / 4⟩ : Twist).linear_x = U_MIN 0 ∧
        (⟨1 / 2, 0, 0, 0, 0, 1 / 4⟩ : Twist).angular_z = 0)) :=
  C9_control_message_zeros 0 (some (1 / 2, 1 / 4)) initState
    ⟨1 / 2, 0, 0, 0, 0, 1 / 4⟩ (by simp [timer_callback])

/-- Claim C10: the constructed node starts from the nominal policy
[U_MIN[0], 0], which under the configured bounds is [0, 0]; each
nominal-policy message overwrites the stored policy with exactly the
message's linear.x and angular.z components (all other components are
ignored); after any burst of messages the stored policy comes from the
last one; and every cycle hands the corrector exactly the currently stored
state and nominal policy. -/
theorem C10_nominal_policy_tracking :
    initState.nominal_policy = (U_MIN 0, 0) ∧ U_MIN 0 = 0 ∧
    (∀ (msg : Twist) (s : NodeState),
      (nom_policy_sub_callback msg s).nominal_policy =
        (msg.linear_x, msg.angular_z)) ∧
    (∀ (msgs : List Twist) (m : Twist) (s : NodeState),
      ((msgs ++ [m]).foldl (fun st msg => nom_policy_sub_callback msg st)
        s).nominal_policy = (m.linear_x, m.angular_z)) ∧
    ∀ (now : ℝ) (q : Option (ℝ × ℝ)) (s : NodeState),
      Event.asifInvoke s.state s.nominal_policy ∈
        (timer_callback now q s).events := by
  refine ⟨rfl, by show (0.0 : ℝ) = 0; norm_num, fun _ _ => rfl, ?_, ?_⟩
  · intro msgs m s
    rw [List.foldl_append]
    rfl
  · intro now q s
    cases q <;> simp [timer_callback]

end CrazyflieClean
